import Mathlib

/-!
Verification of the solid-iot-sync synchronization engine (src/sync.ts).

The development shallowly embeds the engine's pure core: JavaScript primitive
values and their loose (coercing) equality, the value codec used when writing
to and reading from the Solid pod, resource naming, the change cache
(the module-level `characteristics` map), forward sync
(`syncCharacteristicToSolid`, `syncDeviceToSolid`), group record building
(`syncGroupToSolid`), and the reverse-sync notification handler
(`monitorSolidEvents`' onmessage callback).  Asynchronous I/O is made explicit:
each operation returns the updated cache together with the list of external
effects it performed, and remote/local call outcomes are supplied by
environment parameters.  A rejected promise is an `Except.error` result, which
aborts the awaiting caller exactly as in the source.
-/

set_option autoImplicit false

namespace SolidIot

/-- A JavaScript number. `none` models NaN; finite numbers are rationals
(the source never produces Infinity on the paths modelled here). -/
abbrev JSNum := Option Rat

/-- A JavaScript primitive value as carried by HomeKit characteristic state:
boolean, number, or string. -/
inductive Value where
  | vBool (b : Bool)
  | vNum (n : JSNum)
  | vStr (s : String)
  deriving DecidableEq, Repr

/-- Numeric value of a decimal digit character. -/
def digitVal (c : Char) : Nat := c.toNat - 48

/-- Accumulate a list of decimal digit characters into a natural number. -/
def digitsToNat : List Char → Nat → Nat
  | [], acc => acc
  | c :: cs, acc => digitsToNat cs (acc * 10 + digitVal c)

/-- Value of a fractional digit string: fracVal "45" is 0.45. -/
def fracVal : List Char → Rat
  | [] => 0
  | c :: cs => ((digitVal c : Rat) + fracVal cs) / 10

/-- Parse an unsigned decimal numeral (digits, optional point, digits) that
must span the whole character list; `none` models NaN.  JavaScript also
accepts exponents and hex here, which the model omits. -/
def parseUnsignedDec (cs : List Char) : Option Rat :=
  let intPart := cs.takeWhile Char.isDigit
  let rest := cs.dropWhile Char.isDigit
  match rest with
  | [] => if intPart.isEmpty then none else some (digitsToNat intPart 0)
  | '.' :: frac =>
      if frac.all Char.isDigit && !(intPart.isEmpty && frac.isEmpty) then
        some ((digitsToNat intPart 0 : Rat) + fracVal frac)
      else none
  | _ => none

/-- JavaScript ToNumber on a string: trim, empty is 0, otherwise the whole
remainder must be a signed decimal numeral; `none` models NaN. -/
def strToNum (s : String) : JSNum :=
  let cs := s.data.dropWhile Char.isWhitespace
  let cs := (cs.reverse.dropWhile Char.isWhitespace).reverse
  match cs with
  | [] => some 0
  | '-' :: rest => (parseUnsignedDec rest).map Neg.neg
  | '+' :: rest => parseUnsignedDec rest
  | _ => parseUnsignedDec cs

/-- JavaScript parseInt with no radix argument: trim leading whitespace,
optional sign, then the longest run of leading decimal digits; NaN (`none`)
when no digit is present. -/
def parseIntJS (s : String) : JSNum :=
  let core : List Char → Option Rat := fun cs =>
    let ds := cs.takeWhile Char.isDigit
    if ds.isEmpty then none else some (digitsToNat ds 0)
  let cs := s.data.dropWhile Char.isWhitespace
  match cs with
  | '-' :: rest => (core rest).map Neg.neg
  | '+' :: rest => core rest
  | _ => core cs

/-- JavaScript parseFloat: trim leading whitespace, optional sign, then the
longest leading decimal numeral (digits, optional point, digits). -/
def parseFloatJS (s : String) : JSNum :=
  let core : List Char → Option Rat := fun cs =>
    let intPart := cs.takeWhile Char.isDigit
    let rest := cs.dropWhile Char.isDigit
    match rest with
    | '.' :: frac =>
        let fds := frac.takeWhile Char.isDigit
        if intPart.isEmpty && fds.isEmpty then none
        else some ((digitsToNat intPart 0 : Rat) + fracVal fds)
    | _ => if intPart.isEmpty then none else some (digitsToNat intPart 0)
  let cs := s.data.dropWhile Char.isWhitespace
  match cs with
  | '-' :: rest => (core rest).map Neg.neg
  | '+' :: rest => core rest
  | _ => core cs

/-- JavaScript ToNumber on a primitive value (the unary + coercion). -/
def Value.toNumber : Value → JSNum
  | .vBool b => some (if b then 1 else 0)
  | .vNum n => n
  | .vStr s => strToNum s

/-- Equality of JavaScript numbers: NaN compares unequal to everything,
including itself. -/
def jsNumEq : JSNum → JSNum → Bool
  | some a, some b => a == b
  | _, _ => false

/-- JavaScript loose equality over the primitive values above, following the
abstract equality algorithm: same-type operands compare strictly; otherwise
both sides are coerced to number. -/
def looseEq : Value → Value → Bool
  | .vBool a, .vBool b => a == b
  | .vStr a, .vStr b => a == b
  | x, y => jsNumEq x.toNumber y.toNumber

/-- Smallest exponent e (searched up to 40) with den dividing 10 to the e,
used to render a rational exactly in decimal. -/
def decExp (den : Nat) : Option Nat :=
  (List.range 40).find? (fun e => 10 ^ e % den == 0)

/-- Decimal rendering of a rational, exact whenever the denominator divides a
power of ten (every JavaScript double does). -/
def ratDecimalString (q : Rat) : String :=
  let sign := if q < 0 then "-" else ""
  let a : Rat := |q|
  if a.den = 1 then sign ++ toString a.num
  else
    match decExp a.den with
    | some e =>
      let digits := toString (a * (10 : Rat) ^ e).num.natAbs
      let digits := String.mk (List.replicate (e + 1 - digits.length) '0') ++ digits
      sign ++ digits.take (digits.length - e) ++ "." ++ digits.drop (digits.length - e)
    | none => sign ++ toString a.num ++ "/" ++ toString a.den

/-- JavaScript template-string rendering of a primitive value. -/
def jsDisplay : Value → String
  | .vStr s => s
  | .vBool b => if b then "true" else "false"
  | .vNum none => "NaN"
  | .vNum (some q) => ratDecimalString q

/-- A typed literal or link attached to a thing: solid-client's integer,
decimal, string-no-locale and url additions. -/
inductive ThingVal where
  | tvInt (n : JSNum)
  | tvDec (n : JSNum)
  | tvStr (s : String)
  | tvUrl (u : String)
  deriving DecidableEq, Repr

/-- A linked-data thing: its name and its property list in insertion order. -/
structure Thing where
  name : String
  props : List (String × ThingVal)
  deriving DecidableEq, Repr

/-- Model of solid-client createThing with an explicit name. -/
def createThing (name : String) : Thing := ⟨name, []⟩

/-- Append a property to a thing (solid-client add* functions append). -/
def addProp (t : Thing) (k : String) (v : ThingVal) : Thing :=
  ⟨t.name, t.props ++ [(k, v)]⟩

/-- Model of solid-client addInteger. -/
def addInteger (t : Thing) (k : String) (n : JSNum) : Thing := addProp t k (.tvInt n)

/-- Model of solid-client addDecimal. -/
def addDecimal (t : Thing) (k : String) (n : JSNum) : Thing := addProp t k (.tvDec n)

/-- Model of solid-client addStringNoLocale. -/
def addStringNoLocale (t : Thing) (k : String) (s : String) : Thing := addProp t k (.tvStr s)

/-- Model of solid-client addUrl. -/
def addUrl (t : Thing) (k : String) (u : String) : Thing := addProp t k (.tvUrl u)

/-- First property of a thing under a key. -/
def getProp (t : Thing) (k : String) : Option ThingVal :=
  (t.props.find? (fun p => p.1 == k)).map Prod.snd

/-- Model of solid-client getInteger: null unless the first value under the
key is integer-typed. -/
def getInteger (t : Thing) (k : String) : Option JSNum :=
  match getProp t k with
  | some (.tvInt n) => some n
  | _ => none

/-- Model of solid-client getDecimal. -/
def getDecimal (t : Thing) (k : String) : Option JSNum :=
  match getProp t k with
  | some (.tvDec n) => some n
  | _ => none

/-- Model of solid-client getStringNoLocale. -/
def getStringNoLocale (t : Thing) (k : String) : Option String :=
  match getProp t k with
  | some (.tvStr s) => some s
  | _ => none

/-- All url values of a thing under a key, in order. -/
def getUrlsOf (t : Thing) (k : String) : List String :=
  t.props.filterMap (fun p =>
    if p.1 == k then
      match p.2 with
      | .tvUrl u => some u
      | _ => none
    else none)

/-- A fetched dataset: the things it contains, addressed by full IRI name. -/
abbrev Dataset := List Thing

/-- Model of solid-client getThing on a fetched dataset. -/
def getThing (data : Dataset) (iri : String) : Option Thing :=
  data.find? (fun t => t.name == iri)

/-- The IOT vocabulary of src/sync.ts: IOT(identifier). -/
def IOT (identifier : String) : String :=
  "http://dcg.nz/vocab/iot.ttl#" ++ identifier

/-- The rdf:type predicate used via RDF.type. -/
def rdfType : String := "http://www.w3.org/1999/02/22-rdf-syntax-ns#type"

/-- A HomeKit characteristic as used by src/sync.ts (hap-client's
CharacteristicType fields that the engine reads). -/
structure CharacteristicType where
  type : String
  description : String
  format : String
  iid : Int
  uuid : String
  value : Value
  unit : Option String
  canRead : Bool
  canWrite : Bool
  deriving DecidableEq, Repr

/-- A HomeKit service (called Device by the spec) as used by src/sync.ts. -/
structure ServiceType where
  uniqueId : String
  serviceName : String
  type : String
  aid : Int
  uuid : String
  serviceCharacteristics : List CharacteristicType
  deriving DecidableEq, Repr

/-- Whether a character is an ASCII letter, the class the regex A-Za-z keeps. -/
def isAsciiLetter (c : Char) : Bool :=
  ('A' ≤ c && c ≤ 'Z') || ('a' ≤ c && c ≤ 'z')

/-- Model of name.replace with the global regex deleting every character that
is not A-Z or a-z: scan left to right, keeping exactly the letters. -/
def regexStripNonLetters (s : String) : String :=
  String.mk (s.data.foldl (fun acc c => if isAsciiLetter c then acc ++ [c] else acc) [])

/-- Thing name for a group record (sync.ts line 131): stripped name, no id. -/
def groupThingName (groupName : String) : String :=
  regexStripNonLetters groupName

/-- Thing name for a device record (sync.ts line 145): stripped service name
with the accessory id appended unconditionally. -/
def deviceThingName (device : ServiceType) : String :=
  regexStripNonLetters device.serviceName ++ toString device.aid

/-- Thing name for a characteristic record (sync.ts line 177): stripped type
with the instance id appended unconditionally. -/
def characteristicThingName (ch : CharacteristicType) : String :=
  regexStripNonLetters ch.type ++ toString ch.iid

/-- The change cache: the module-level characteristics map from resource url
to the last characteristic stored for it, modelled as an association list. -/
abbrev Cache := List (String × CharacteristicType)

/-- Map.get on the change cache. -/
def cacheGet (c : Cache) (k : String) : Option CharacteristicType :=
  (c.find? (fun p => p.1 == k)).map Prod.snd

/-- Map.set on the change cache: replace the binding for the key, or append. -/
def cacheSet (c : Cache) (k : String) (v : CharacteristicType) : Cache :=
  match c with
  | [] => [(k, v)]
  | (k0, v0) :: rest => if k0 == k then (k, v) :: rest else (k0, v0) :: cacheSet rest k v

/-- External effects an operation performs, in order. -/
inductive Effect where
  | remoteWrite (url : String) (thing : Thing)
  | remoteFetch (url : String)
  | localWrite (value : Value)
  | logError (msg : String)
  deriving DecidableEq, Repr

/-- Whether an effect is a remote record write (saveSolidDatasetAt). -/
def isRemoteWrite : Effect → Bool
  | .remoteWrite _ _ => true
  | _ => false

/-- Number of remote record writes in an effect list. -/
def remoteWriteCount (l : List Effect) : Nat := (l.filter isRemoteWrite).length

/-- Environment of forward sync: the configured pod base url and, for each
target url, whether saveSolidDatasetAt resolves (true) or rejects (false). -/
structure Env where
  homeUrl : String
  remoteWriteOk : String → Bool

/-- The supported formats of the value codec switch. -/
def isSupportedFormat (format : String) : Bool :=
  format == "bool" || format == "string" || format == "float" || format == "int" ||
    format == "uint8" || format == "uint16" || format == "uint32" || format == "uint64"

/-- JavaScript coercion used in the integer branches (sync.ts lines 197, 218):
parseInt for strings, unary plus otherwise. -/
def coerceIntJS (v : Value) : JSNum :=
  match v with
  | .vStr s => parseIntJS s
  | _ => v.toNumber

/-- JavaScript coercion used in the float branch (sync.ts line 207):
parseFloat for strings, unary plus otherwise. -/
def coerceFloatJS (v : Value) : JSNum :=
  match v with
  | .vStr s => parseFloatJS s
  | _ => v.toNumber

/-- The encode half of the value codec: the switch over characteristic.format
in syncCharacteristicToSolid (sync.ts lines 192-223).  The default branch
only logs, leaving the thing without a value property. -/
def addValueForFormat (t : Thing) (format : String) (value : Value) : Thing :=
  match format with
  | "bool" => addInteger t (IOT "value") (coerceIntJS value)
  | "string" => addStringNoLocale t (IOT "value") (jsDisplay value)
  | "float" => addDecimal t (IOT "value") (coerceFloatJS value)
  | "int" => addInteger t (IOT "value") (coerceIntJS value)
  | "uint8" => addInteger t (IOT "value") (coerceIntJS value)
  | "uint16" => addInteger t (IOT "value") (coerceIntJS value)
  | "uint32" => addInteger t (IOT "value") (coerceIntJS value)
  | "uint64" => addInteger t (IOT "value") (coerceIntJS value)
  | _ => t

/-- The characteristic record attributes added before the value switch
(sync.ts lines 176-190). -/
def buildCharacteristicThingBase (ch : CharacteristicType) : Thing :=
  let t := createThing (characteristicThingName ch)
  let t := addUrl t rdfType (IOT "Characteristic")
  let t := addStringNoLocale t (IOT "desc") ch.description
  let t := addStringNoLocale t (IOT "format") ch.format
  let t := addInteger t (IOT "canRead") (some (if ch.canRead then 1 else 0))
  let t := addInteger t (IOT "canWrite") (some (if ch.canWrite then 1 else 0))
  let t := addStringNoLocale t (IOT "type") ch.type
  let t := addInteger t (IOT "id") (some (ch.iid : Rat))
  let t := addStringNoLocale t (IOT "uuid") ch.uuid
  match ch.unit with
  | some u => if u == "" then t else addStringNoLocale t (IOT "unit") u
  | none => t

/-- The characteristic record built by syncCharacteristicToSolid
(sync.ts lines 176-223): the base attributes, then the value switch. -/
def buildCharacteristicThing (ch : CharacteristicType) : Thing :=
  addValueForFormat (buildCharacteristicThingBase ch) ch.format ch.value

/-- Target resource url of a characteristic (sync.ts line 172). -/
def characteristicUrl (env : Env) (device : ServiceType) (ch : CharacteristicType) : String :=
  env.homeUrl ++ "/Characteristics/" ++ device.uniqueId ++ "/" ++ ch.type

/-- The no-op guard of incremental forward sync (sync.ts lines 173-174):
true when the cache holds an entry for the url whose value is loosely equal
to the candidate value. -/
def noopGuard (cache : Cache) (url : String) (v : Value) : Bool :=
  match cacheGet cache url with
  | some curr => looseEq v curr.value
  | none => false

/-- Outcome of an incremental characteristic sync that did not reject:
the early return (undefined) or the saved dataset's source IRI. -/
inductive SyncOutcome where
  | noop
  | saved (sourceIri : String)
  deriving DecidableEq, Repr

/-- Model of syncCharacteristicToSolid (sync.ts lines 168-227): returns the
updated change cache, the effects performed, and the settled result of the
returned promise.  Note the source sets the cache entry before awaiting the
remote write, and its unsupported-format branch only logs. -/
def syncCharacteristicToSolid (env : Env) (cache : Cache) (device : ServiceType)
    (ch : CharacteristicType) : Cache × List Effect × Except String SyncOutcome :=
  let url := characteristicUrl env device ch
  if noopGuard cache url ch.value then (cache, [], .ok .noop)
  else
    let thing := buildCharacteristicThing ch
    let logs := if isSupportedFormat ch.format then [] else [Effect.logError "Unsupported format"]
    let cache2 := cacheSet cache url ch
    if env.remoteWriteOk url then
      (cache2, logs ++ [Effect.remoteWrite url thing], .ok (.saved url))
    else
      (cache2, logs ++ [Effect.remoteWrite url thing], .error "RemoteWriteError")

/-- The device record before any characteristic links (sync.ts lines 143-151). -/
def buildDeviceThingBase (device : ServiceType) : Thing :=
  let t := createThing (deviceThingName device)
  let t := addUrl t rdfType (IOT "Device")
  let t := addStringNoLocale t (IOT "name") device.serviceName
  let t := addStringNoLocale t (IOT "type") device.type
  let t := addInteger t (IOT "id") (some (device.aid : Rat))
  addStringNoLocale t (IOT "uuid") device.uuid

/-- Target resource url of a device record (sync.ts line 164). -/
def deviceUrl (env : Env) (device : ServiceType) : String :=
  env.homeUrl ++ "/Devices/" ++ device.uniqueId

/-- The awaited loop over a device's characteristics (sync.ts lines 152-162):
each successful save links its IRI into the device thing; a rejected save
throws out of the loop. -/
def syncCharsLoop (env : Env) (device : ServiceType) :
    Cache → List CharacteristicType → Thing → Cache × List Effect × Except String Thing
  | cache, [], thing => (cache, [], .ok thing)
  | cache, ch :: rest, thing =>
    match syncCharacteristicToSolid env cache device ch with
    | (c1, e1, .error e) => (c1, e1, .error e)
    | (c1, e1, .ok .noop) =>
        match syncCharsLoop env device c1 rest thing with
        | (c2, e2, r2) => (c2, e1 ++ e2, r2)
    | (c1, e1, .ok (.saved iri)) =>
        match syncCharsLoop env device c1 rest (addUrl thing (IOT "hasCharacteristic") iri) with
        | (c2, e2, r2) => (c2, e1 ++ e2, r2)

/-- Model of syncDeviceToSolid (sync.ts lines 142-166). -/
def syncDeviceToSolid (env : Env) (cache : Cache) (device : ServiceType) :
    Cache × List Effect × Except String String :=
  match syncCharsLoop env device cache device.serviceCharacteristics (buildDeviceThingBase device) with
  | (c, e, .error err) => (c, e, .error err)
  | (c, e, .ok thing) =>
    let url := deviceUrl env device
    if env.remoteWriteOk url then (c, e ++ [Effect.remoteWrite url thing], .ok url)
    else (c, e ++ [Effect.remoteWrite url thing], .error "RemoteWriteError")

/-- The group record built by syncGroupToSolid (sync.ts lines 129-139). -/
def buildGroupThing (groupName : String) (deviceUrls : List String) : Thing :=
  let t := createThing (groupThingName groupName)
  let t := addUrl t rdfType (IOT "Group")
  let t := addStringNoLocale t (IOT "name") groupName
  deviceUrls.foldl (fun t u => addUrl t (IOT "contains") u) t

/-- The decode half of the value codec: the switch over the fetched format
string in monitorSolidEvents (sync.ts lines 269-289).  Returns the decoded
value (null on unknown format or missing/ill-typed property) and the log
effects of the default branch. -/
def decodeValueForFormat (format : Option String) (thing : Thing) : Option Value × List Effect :=
  match format with
  | some "bool" => ((getInteger thing (IOT "value")).map Value.vNum, [])
  | some "string" => ((getStringNoLocale thing (IOT "value")).map Value.vStr, [])
  | some "float" => ((getDecimal thing (IOT "value")).map Value.vNum, [])
  | some "int" => ((getInteger thing (IOT "value")).map Value.vNum, [])
  | some "uint8" => ((getInteger thing (IOT "value")).map Value.vNum, [])
  | some "uint16" => ((getInteger thing (IOT "value")).map Value.vNum, [])
  | some "uint32" => ((getInteger thing (IOT "value")).map Value.vNum, [])
  | some "uint64" => ((getInteger thing (IOT "value")).map Value.vNum, [])
  | _ => (none, [Effect.logError "Unsupported format"])

/-- Environment of the reverse-sync handler: the dataset getSolidDataset
delivers for a url (none models a rejected fetch) and the characteristic that
curr.setValue resolves to (none models a missing setValue or a failed local
write, both of which leave updated falsy). -/
structure ReverseEnv where
  fetched : String → Option Dataset
  setValueResult : Value → Option CharacteristicType

/-- Model of the websocket onmessage handler of monitorSolidEvents
(sync.ts lines 253-298): returns the updated change cache and the effects
performed.  A rejected fetch or a null thing aborts the handler after the
fetch attempt, as the thrown error is not caught anywhere. -/
def handleSolidMessage (renv : ReverseEnv) (cache : Cache) (msgData : String) :
    Cache × List Effect :=
  if msgData != "" && msgData.take 3 == "pub" then
    let resourceUrl := msgData.drop 4
    match cacheGet cache resourceUrl with
    | none => (cache, [])
    | some curr =>
      match renv.fetched resourceUrl with
      | none => (cache, [Effect.remoteFetch resourceUrl])
      | some data =>
        match getThing data (resourceUrl ++ "#" ++ characteristicThingName curr) with
        | none => (cache, [Effect.remoteFetch resourceUrl])
        | some thing =>
          match decodeValueForFormat (getStringNoLocale thing (IOT "format")) thing with
          | (none, logs) => (cache, Effect.remoteFetch resourceUrl :: logs)
          | (some v, logs) =>
            if looseEq v curr.value then (cache, Effect.remoteFetch resourceUrl :: logs)
            else
              match renv.setValueResult v with
              | some updated =>
                  (cacheSet cache resourceUrl updated,
                   Effect.remoteFetch resourceUrl :: logs ++ [Effect.localWrite v])
              | none => (cache, Effect.remoteFetch resourceUrl :: logs ++ [Effect.localWrite v])
  else (cache, [])

/-- Looking a key up in the empty cache yields nothing. -/
theorem cacheGet_nil (k : String) : cacheGet [] k = none := rfl

/-- Cache lookup on a cons. -/
theorem cacheGet_cons (k0 : String) (v0 : CharacteristicType) (rest : Cache) (k : String) :
    cacheGet ((k0, v0) :: rest) k = if k0 == k then some v0 else cacheGet rest k := by
  cases h : (k0 == k) <;> simp [cacheGet, List.find?, h]

/-- Setting a key makes it retrievable. -/
theorem cacheGet_set_self (c : Cache) (k : String) (v : CharacteristicType) :
    cacheGet (cacheSet c k v) k = some v := by
  induction c with
  | nil => simp [cacheSet, cacheGet_cons]
  | cons p rest ih =>
    obtain ⟨k0, v0⟩ := p
    by_cases h : k0 = k
    · subst h; simp [cacheSet, cacheGet_cons]
    · simp [cacheSet, cacheGet_cons, h, ih]

/-- Setting a key leaves other keys unchanged. -/
theorem cacheGet_set_other (c : Cache) (k k' : String) (v : CharacteristicType)
    (h : k ≠ k') : cacheGet (cacheSet c k v) k' = cacheGet c k' := by
  induction c with
  | nil => simp [cacheSet, cacheGet_cons, h]
  | cons p rest ih =>
    obtain ⟨k0, v0⟩ := p
    by_cases h0 : k0 = k
    · subst h0; simp [cacheSet, cacheGet_cons, h]
    · simp [cacheSet, cacheGet_cons, h0, ih]

/-- When the no-op guard fires, incremental forward sync returns without any
effect or cache change (sync.ts line 174). -/
theorem syncChar_guard_true {env : Env} {cache : Cache} {device : ServiceType}
    {ch : CharacteristicType}
    (h : noopGuard cache (characteristicUrl env device ch) ch.value = true) :
    syncCharacteristicToSolid env cache device ch = (cache, [], .ok .noop) := by
  unfold syncCharacteristicToSolid
  simp [h]

/-- When the guard does not fire and the remote write resolves, incremental
forward sync sets the cache entry and performs the write. -/
theorem syncChar_guard_false_ok {env : Env} {cache : Cache} {device : ServiceType}
    {ch : CharacteristicType}
    (h : noopGuard cache (characteristicUrl env device ch) ch.value = false)
    (hw : env.remoteWriteOk (characteristicUrl env device ch) = true) :
    syncCharacteristicToSolid env cache device ch =
      (cacheSet cache (characteristicUrl env device ch) ch,
       (if isSupportedFormat ch.format then [] else [Effect.logError "Unsupported format"]) ++
         [Effect.remoteWrite (characteristicUrl env device ch) (buildCharacteristicThing ch)],
       .ok (.saved (characteristicUrl env device ch))) := by
  unfold syncCharacteristicToSolid
  simp [h, hw]

/-- When the guard does not fire and the remote write rejects, incremental
forward sync has already set the cache entry and the returned promise
rejects. -/
theorem syncChar_guard_false_err {env : Env} {cache : Cache} {device : ServiceType}
    {ch : CharacteristicType}
    (h : noopGuard cache (characteristicUrl env device ch) ch.value = false)
    (hw : env.remoteWriteOk (characteristicUrl env device ch) = false) :
    syncCharacteristicToSolid env cache device ch =
      (cacheSet cache (characteristicUrl env device ch) ch,
       (if isSupportedFormat ch.format then [] else [Effect.logError "Unsupported format"]) ++
         [Effect.remoteWrite (characteristicUrl env device ch) (buildCharacteristicThing ch)],
       .error "RemoteWriteError") := by
  unfold syncCharacteristicToSolid
  simp [h, hw]

/-- The cache produced by incremental forward sync, in both guard branches and
independently of the write outcome. -/
theorem syncChar_cache (env : Env) (cache : Cache) (device : ServiceType)
    (ch : CharacteristicType) :
    (syncCharacteristicToSolid env cache device ch).1 =
      if noopGuard cache (characteristicUrl env device ch) ch.value then cache
      else cacheSet cache (characteristicUrl env device ch) ch := by
  by_cases h : noopGuard cache (characteristicUrl env device ch) ch.value
  · rw [syncChar_guard_true h]; simp [h]
  · rw [Bool.not_eq_true] at h
    cases hw : env.remoteWriteOk (characteristicUrl env device ch)
    · rw [syncChar_guard_false_err h hw]; simp [h]
    · rw [syncChar_guard_false_ok h hw]; simp [h]

/-- A successful decode comes from a supported-format branch, which logs
nothing. -/
theorem decode_some_logs {f : Option String} {t : Thing} {v : Value}
    (h : (decodeValueForFormat f t).1 = some v) : (decodeValueForFormat f t).2 = [] := by
  unfold decodeValueForFormat at h ⊢
  split at h <;> simp_all

/-- Left cancellation for string concatenation. -/
theorem string_append_cancel_left {s a b : String} (h : s ++ a = s ++ b) : a = b := by
  cases s with
  | mk ds =>
    cases a with
    | mk da =>
      cases b with
      | mk db =>
        have h2 := congrArg String.data h
        simp only [String.data_append] at h2
        exact congrArg String.mk (List.append_cancel_left h2)

/-- Characteristic resource urls are injective in the characteristic type. -/
theorem characteristicUrl_inj {env : Env} {device : ServiceType}
    {a b : CharacteristicType}
    (h : characteristicUrl env device a = characteristicUrl env device b) :
    a.type = b.type := by
  unfold characteristicUrl at h
  have h2 := congrArg String.data h
  simp only [String.data_append, List.append_assoc] at h2
  have h3 := List.append_cancel_left h2
  have h4 := List.append_cancel_left h3
  have h5 := List.append_cancel_left h4
  have h6 := List.append_cancel_left h5
  cases ha : a.type with
  | mk la =>
    cases hb : b.type with
    | mk lb =>
      rw [ha, hb] at h6
      exact congrArg String.mk h6

/-- Scanning with the keep-letters fold is filtering. -/
theorem foldl_keep_eq_filter (p : Char → Bool) (cs : List Char) (acc : List Char) :
    cs.foldl (fun a c => if p c then a ++ [c] else a) acc = acc ++ cs.filter p := by
  induction cs generalizing acc with
  | nil => simp
  | cons c cs ih => cases h : p c <;> simp [List.filter_cons, h, ih]

/-- The regex-replace model deletes exactly the non-letters. -/
theorem regexStripNonLetters_eq_filter (s : String) :
    regexStripNonLetters s = String.mk (s.data.filter isAsciiLetter) := by
  unfold regexStripNonLetters
  rw [foldl_keep_eq_filter]
  simp

/-- Unfolding of the characteristics loop when the head sync rejects: the
await throws, the remaining characteristics are skipped. -/
theorem syncCharsLoop_cons_err {env : Env} {device : ServiceType} {cache : Cache}
    {c : CharacteristicType} {rest : List CharacteristicType} {thing : Thing}
    {c1 : Cache} {e1 : List Effect} {msg : String}
    (h : syncCharacteristicToSolid env cache device c = (c1, e1, .error msg)) :
    syncCharsLoop env device cache (c :: rest) thing = (c1, e1, .error msg) := by
  simp only [syncCharsLoop]
  rw [h]

/-- Unfolding of the characteristics loop when the head sync is the no-op
early return: no link is added to the device thing. -/
theorem syncCharsLoop_cons_noop {env : Env} {device : ServiceType} {cache : Cache}
    {c : CharacteristicType} {rest : List CharacteristicType} {thing : Thing}
    {c1 : Cache} {e1 : List Effect}
    (h : syncCharacteristicToSolid env cache device c = (c1, e1, .ok .noop)) :
    syncCharsLoop env device cache (c :: rest) thing =
      ((syncCharsLoop env device c1 rest thing).1,
       e1 ++ (syncCharsLoop env device c1 rest thing).2.1,
       (syncCharsLoop env device c1 rest thing).2.2) := by
  simp only [syncCharsLoop]
  rw [h]

/-- Unfolding of the characteristics loop when the head sync saves: its IRI is
linked into the device thing. -/
theorem syncCharsLoop_cons_saved {env : Env} {device : ServiceType} {cache : Cache}
    {c : CharacteristicType} {rest : List CharacteristicType} {thing : Thing}
    {c1 : Cache} {e1 : List Effect} {iri : String}
    (h : syncCharacteristicToSolid env cache device c = (c1, e1, .ok (.saved iri))) :
    syncCharsLoop env device cache (c :: rest) thing =
      ((syncCharsLoop env device c1 rest (addUrl thing (IOT "hasCharacteristic") iri)).1,
       e1 ++ (syncCharsLoop env device c1 rest (addUrl thing (IOT "hasCharacteristic") iri)).2.1,
       (syncCharsLoop env device c1 rest (addUrl thing (IOT "hasCharacteristic") iri)).2.2) := by
  simp only [syncCharsLoop]
  rw [h]

/-- A characteristics loop whose every member is suppressed by the no-op
guard changes nothing: no cache mutation, no effects, and the device thing
passes through without characteristic links. -/
theorem syncCharsLoop_all_noop (env : Env) (device : ServiceType) :
    ∀ (chs : List CharacteristicType) (cache : Cache) (thing : Thing),
      (∀ ch ∈ chs, noopGuard cache (characteristicUrl env device ch) ch.value = true) →
      syncCharsLoop env device cache chs thing = (cache, [], .ok thing) := by
  intro chs
  induction chs with
  | nil => intro cache thing _; rfl
  | cons c rest ih =>
    intro cache thing h
    have hc := h c (List.mem_cons_self c rest)
    rw [syncCharsLoop_cons_noop (syncChar_guard_true hc),
      ih cache thing (fun ch hch => h ch (List.mem_cons_of_mem c hch))]
    rfl

/-- The characteristics loop leaves cache keys outside its url set unchanged,
whatever the write outcomes. -/
theorem syncCharsLoop_preserves (env : Env) (device : ServiceType) :
    ∀ (chs : List CharacteristicType) (cache : Cache) (thing : Thing) (k : String),
      (∀ ch ∈ chs, characteristicUrl env device ch ≠ k) →
      cacheGet (syncCharsLoop env device cache chs thing).1 k = cacheGet cache k := by
  intro chs
  induction chs with
  | nil => intro cache thing k _; rfl
  | cons c rest ih =>
    intro cache thing k h
    have hck := h c (List.mem_cons_self c rest)
    have hrest := fun ch hch => h ch (List.mem_cons_of_mem c hch)
    by_cases hg : noopGuard cache (characteristicUrl env device c) c.value
    · rw [syncCharsLoop_cons_noop (syncChar_guard_true hg)]
      exact ih cache thing k hrest
    · rw [Bool.not_eq_true] at hg
      cases hw : env.remoteWriteOk (characteristicUrl env device c)
      · rw [syncCharsLoop_cons_err (syncChar_guard_false_err hg hw)]
        exact cacheGet_set_other cache _ k c hck
      · rw [syncCharsLoop_cons_saved (syncChar_guard_false_ok hg hw)]
        exact (ih _ _ k hrest).trans (cacheGet_set_other cache _ k c hck)

/-- When every remote write resolves, the characteristics loop never
rejects. -/
theorem syncCharsLoop_ok_of_writes (env : Env) (device : ServiceType)
    (hok : ∀ u, env.remoteWriteOk u = true) :
    ∀ (chs : List CharacteristicType) (cache : Cache) (thing : Thing),
      ∃ c e t, syncCharsLoop env device cache chs thing = (c, e, .ok t) := by
  intro chs
  induction chs with
  | nil => intro cache thing; exact ⟨cache, [], thing, rfl⟩
  | cons c rest ih =>
    intro cache thing
    by_cases hg : noopGuard cache (characteristicUrl env device c) c.value
    · rw [syncCharsLoop_cons_noop (syncChar_guard_true hg)]
      obtain ⟨c2, e2, t2, hrec⟩ := ih cache thing
      exact ⟨c2, [] ++ e2, t2, by rw [hrec]⟩
    · rw [Bool.not_eq_true] at hg
      rw [syncCharsLoop_cons_saved (syncChar_guard_false_ok hg (hok _))]
      obtain ⟨c2, e2, t2, hrec⟩ := ih (cacheSet cache (characteristicUrl env device c) c)
        (addUrl thing (IOT "hasCharacteristic") (characteristicUrl env device c))
      exact ⟨c2, _ ++ e2, t2, by rw [hrec]⟩

/-- After a characteristics loop over pairwise-distinct types starting from a
cache holding none of the target urls, with all writes resolving, every
characteristic is cached at its url. -/
theorem syncCharsLoop_caches (env : Env) (device : ServiceType)
    (hok : ∀ u, env.remoteWriteOk u = true) :
    ∀ (chs : List CharacteristicType) (cache : Cache) (thing : Thing),
      (∀ ch ∈ chs, cacheGet cache (characteristicUrl env device ch) = none) →
      chs.Pairwise (fun a b => a.type ≠ b.type) →
      ∀ ch ∈ chs,
        cacheGet (syncCharsLoop env device cache chs thing).1
          (characteristicUrl env device ch) = some ch := by
  intro chs
  induction chs with
  | nil => intro cache thing _ _ ch hch; exact absurd hch (List.not_mem_nil ch)
  | cons c rest ih =>
    intro cache thing hfresh hpw ch hch
    have hcfresh := hfresh c (List.mem_cons_self c rest)
    have hg : noopGuard cache (characteristicUrl env device c) c.value = false := by
      unfold noopGuard; rw [hcfresh]
    have hpwhead : ∀ b ∈ rest, c.type ≠ b.type := (List.pairwise_cons.mp hpw).1
    have hpwtail := (List.pairwise_cons.mp hpw).2
    rw [syncCharsLoop_cons_saved (syncChar_guard_false_ok hg (hok _))]
    rcases List.mem_cons.mp hch with hceq | hmem
    · subst hceq
      have hpres := syncCharsLoop_preserves env device rest
        (cacheSet cache (characteristicUrl env device ch) ch)
        (addUrl thing (IOT "hasCharacteristic") (characteristicUrl env device ch))
        (characteristicUrl env device ch)
        (fun b hb hurl => hpwhead b hb (characteristicUrl_inj hurl).symm)
      exact hpres.trans (cacheGet_set_self cache (characteristicUrl env device ch) ch)
    · have hfresh2 : ∀ b ∈ rest,
          cacheGet (cacheSet cache (characteristicUrl env device c) c)
            (characteristicUrl env device b) = none := by
        intro b hb
        rw [cacheGet_set_other cache _ _ c
          (fun hurl => hpwhead b hb (characteristicUrl_inj hurl))]
        exact hfresh b (List.mem_cons_of_mem c hb)
      exact ih (cacheSet cache (characteristicUrl env device c) c)
        (addUrl thing (IOT "hasCharacteristic") (characteristicUrl env device c))
        hfresh2 hpwtail ch hmem

/-- Unfolding of the device sync when the characteristics loop rejects: the
device record write never happens. -/
theorem syncDevice_of_loop_err {env : Env} {device : ServiceType} {cache : Cache}
    {c1 : Cache} {e1 : List Effect} {msg : String}
    (h : syncCharsLoop env device cache device.serviceCharacteristics
      (buildDeviceThingBase device) = (c1, e1, .error msg)) :
    syncDeviceToSolid env cache device = (c1, e1, .error msg) := by
  unfold syncDeviceToSolid; rw [h]

/-- Unfolding of the device sync when the characteristics loop completes and
the device record write resolves. -/
theorem syncDevice_of_loop_ok {env : Env} {device : ServiceType} {cache : Cache}
    {c1 : Cache} {e1 : List Effect} {t : Thing}
    (h : syncCharsLoop env device cache device.serviceCharacteristics
      (buildDeviceThingBase device) = (c1, e1, .ok t))
    (hw : env.remoteWriteOk (deviceUrl env device) = true) :
    syncDeviceToSolid env cache device =
      (c1, e1 ++ [Effect.remoteWrite (deviceUrl env device) t],
       .ok (deviceUrl env device)) := by
  unfold syncDeviceToSolid; rw [h]; simp [hw]

/-- Sample environment whose every remote write resolves. -/
def sampleEnv : Env := ⟨"https://pod", fun _ => true⟩

/-- Sample environment whose every remote write rejects. -/
def sampleEnvNoWrite : Env := ⟨"https://pod", fun _ => false⟩

/-- Sample boolean characteristic. -/
def chOn : CharacteristicType :=
  ⟨"On", "On", "bool", 2, "uuid-on", .vBool true, none, true, true⟩

/-- Sample integer characteristic. -/
def chBrightness : CharacteristicType :=
  ⟨"Brightness", "Brightness", "int", 3, "uuid-b", .vNum (some 50), none, true, true⟩

/-- Sample characteristic with a format outside the supported set. -/
def chEnum : CharacteristicType :=
  ⟨"Mode", "Mode", "enum", 4, "uuid-mode", .vNum (some 1), none, true, true⟩

/-- Sample integer characteristic, cached state. -/
def chTempOld : CharacteristicType :=
  ⟨"Temp", "Temperature", "int", 5, "uuid-t", .vNum (some 20), none, true, true⟩

/-- Sample integer characteristic, new state for the same type. -/
def chTempNew : CharacteristicType :=
  ⟨"Temp", "Temperature", "int", 5, "uuid-t", .vNum (some 21), none, true, true⟩

/-- Sample device owning the boolean characteristic. -/
def sampleDevice : ServiceType := ⟨"dev1", "Light", "Lightbulb", 1, "uuid-dev", [chOn]⟩

/-- Sample device owning two characteristics of distinct types. -/
def devAB : ServiceType := ⟨"dev1", "Light", "Lightbulb", 1, "uuid-dev", [chOn, chBrightness]⟩

/-- Environment that rejects exactly the write of chOn's resource. -/
def envFailOn : Env :=
  ⟨"https://pod", fun u => u != "https://pod/Characteristics/dev1/On"⟩

/-- C6: the local resource name is the human-readable name with every
character that is not an ASCII letter removed; the numeric instance id is
appended unconditionally for devices (accessory id) and characteristics
(instance id) and not appended for groups; identical (name, id) inputs yield
identical names. -/
theorem naming_strips_letters_appends_id :
    (∀ d : ServiceType, deviceThingName d =
        String.mk (d.serviceName.data.filter isAsciiLetter) ++ toString d.aid) ∧
    (∀ ch : CharacteristicType, characteristicThingName ch =
        String.mk (ch.type.data.filter isAsciiLetter) ++ toString ch.iid) ∧
    (∀ g : String, groupThingName g = String.mk (g.data.filter isAsciiLetter)) ∧
    (∀ d1 d2 : ServiceType, d1.serviceName = d2.serviceName → d1.aid = d2.aid →
        deviceThingName d1 = deviceThingName d2) ∧
    (∀ a b : CharacteristicType, a.type = b.type → a.iid = b.iid →
        characteristicThingName a = characteristicThingName b) := by
  refine ⟨?_, ?_, ?_, ?_, ?_⟩
  · intro d; unfold deviceThingName; rw [regexStripNonLetters_eq_filter]
  · intro ch; unfold characteristicThingName; rw [regexStripNonLetters_eq_filter]
  · intro g; unfold groupThingName; rw [regexStripNonLetters_eq_filter]
  · intro d1 d2 hn ha; unfold deviceThingName; rw [hn, ha]
  · intro a b ht hi; unfold characteristicThingName; rw [ht, hi]

/-- C6 witness: two concrete devices agreeing on name and accessory id but
differing elsewhere receive the same resource name, and it is the stripped
name with the id appended. -/
theorem naming_strips_letters_appends_id_witness :
    deviceThingName ⟨"u1", "My Light 1!", "Lightbulb", 7, "x", []⟩ =
      deviceThingName ⟨"u2", "My Light 1!", "Switch", 7, "y", []⟩ ∧
    deviceThingName ⟨"u1", "My Light 1!", "Lightbulb", 7, "x", []⟩ = "MyLight7" :=
  ⟨naming_strips_letters_appends_id.2.2.2.1
      ⟨"u1", "My Light 1!", "Lightbulb", 7, "x", []⟩
      ⟨"u2", "My Light 1!", "Switch", 7, "y", []⟩ rfl rfl,
   by decide⟩

/-- C8: an inbound notification whose resource id is absent from the change
cache is dropped with no side effects: no fetch, no local write, cache
unchanged (sync.ts line 258). -/
theorem reverse_drops_unknown_resource (renv : ReverseEnv) (cache : Cache)
    (msgData : String)
    (habs : cacheGet cache (msgData.drop 4) = none) :
    handleSolidMessage renv cache msgData = (cache, []) := by
  unfold handleSolidMessage
  cases hp : (msgData != "" && msgData.take 3 == "pub")
  · simp [hp]
  · simp [hp, habs]

/-- C8 witness: a notification for a never-seen resource on the empty cache. -/
theorem reverse_drops_unknown_resource_witness :
    handleSolidMessage ⟨fun _ => none, fun _ => none⟩ [] "pub https://pod/unknown" =
      ([], []) :=
  reverse_drops_unknown_resource ⟨fun _ => none, fun _ => none⟩ [] "pub https://pod/unknown" rfl

/-- C4: when the cache holds a loosely-equal value for the target resource id,
incremental forward sync returns with no remote write and no cache mutation;
consequently two successive syncs of an unchanged (self-equal) characteristic
value starting from a cache without that resource produce exactly one remote
write. -/
theorem forward_noop_guard_idempotent (env : Env) (cache : Cache)
    (device : ServiceType) (ch : CharacteristicType)
    (hself : looseEq ch.value ch.value = true)
    (hfresh : cacheGet cache (characteristicUrl env device ch) = none) :
    (∀ (cache2 : Cache) (curr : CharacteristicType),
        cacheGet cache2 (characteristicUrl env device ch) = some curr →
        looseEq ch.value curr.value = true →
        syncCharacteristicToSolid env cache2 device ch = (cache2, [], .ok .noop)) ∧
    remoteWriteCount ((syncCharacteristicToSolid env cache device ch).2.1) +
      remoteWriteCount ((syncCharacteristicToSolid env
        (syncCharacteristicToSolid env cache device ch).1 device ch).2.1) = 1 := by
  constructor
  · intro cache2 curr hc hl
    apply syncChar_guard_true
    unfold noopGuard; rw [hc]; exact hl
  · have hg : noopGuard cache (characteristicUrl env device ch) ch.value = false := by
      unfold noopGuard; rw [hfresh]
    have hcache1 : (syncCharacteristicToSolid env cache device ch).1 =
        cacheSet cache (characteristicUrl env device ch) ch := by
      rw [syncChar_cache]; simp [hg]
    have heff1 : remoteWriteCount ((syncCharacteristicToSolid env cache device ch).2.1) = 1 := by
      cases hw : env.remoteWriteOk (characteristicUrl env device ch)
      · rw [syncChar_guard_false_err hg hw]
        cases hsf : isSupportedFormat ch.format <;>
          simp [hsf, remoteWriteCount, isRemoteWrite]
      · rw [syncChar_guard_false_ok hg hw]
        cases hsf : isSupportedFormat ch.format <;>
          simp [hsf, remoteWriteCount, isRemoteWrite]
    have hg2 : noopGuard (syncCharacteristicToSolid env cache device ch).1
        (characteristicUrl env device ch) ch.value = true := by
      rw [hcache1]; unfold noopGuard; rw [cacheGet_set_self]; exact hself
    rw [syncChar_guard_true hg2, heff1]
    simp [remoteWriteCount]

/-- C4 witness: syncing the sample boolean characteristic twice from the
empty cache performs exactly one remote write. -/
theorem forward_noop_guard_idempotent_witness :
    remoteWriteCount ((syncCharacteristicToSolid sampleEnv [] sampleDevice chOn).2.1) +
      remoteWriteCount ((syncCharacteristicToSolid sampleEnv
        (syncCharacteristicToSolid sampleEnv [] sampleDevice chOn).1
        sampleDevice chOn).2.1) = 1 :=
  (forward_noop_guard_idempotent sampleEnv [] sampleDevice chOn (by decide) rfl).2

/-- The pre-switch characteristic record carries no value property. -/
theorem characteristicThingBase_value_none (ch : CharacteristicType) :
    getProp (buildCharacteristicThingBase ch) (IOT "value") = none := by
  unfold buildCharacteristicThingBase
  cases hu : ch.unit with
  | none =>
    simp [getProp, addStringNoLocale, addInteger, addUrl, addProp, createThing,
      IOT, rdfType, List.find?]
  | some u =>
    cases hue : (u == "") <;>
      simp [hue, getProp, addStringNoLocale, addInteger, addUrl, addProp, createThing,
        IOT, rdfType, List.find?]

/-- The encode switch leaves the thing untouched on an unsupported format. -/
theorem addValueForFormat_unsupported (t : Thing) (format : String) (v : Value)
    (hfmt : isSupportedFormat format = false) : addValueForFormat t format v = t := by
  unfold addValueForFormat
  split <;> simp_all [isSupportedFormat]

/-- A characteristic record built for an unsupported format carries no value
property at all. -/
theorem getProp_value_unsupported (ch : CharacteristicType)
    (hfmt : isSupportedFormat ch.format = false) :
    getProp (buildCharacteristicThing ch) (IOT "value") = none := by
  unfold buildCharacteristicThing
  rw [addValueForFormat_unsupported _ _ _ hfmt]
  exact characteristicThingBase_value_none ch

/-- C2 counterexample: from a cache holding the old value, syncing a changed
value against a store whose write rejects still replaces the cache entry with
the new characteristic, so the pre-write cache state is not preserved on a
RemoteWriteError. -/
theorem forward_cache_update_on_failed_write_counterexample :
    (syncCharacteristicToSolid sampleEnvNoWrite
        [("https://pod/Characteristics/dev1/Temp", chTempOld)]
        sampleDevice chTempNew).2.2 = .error "RemoteWriteError" ∧
    cacheGet (syncCharacteristicToSolid sampleEnvNoWrite
        [("https://pod/Characteristics/dev1/Temp", chTempOld)]
        sampleDevice chTempNew).1 "https://pod/Characteristics/dev1/Temp" =
      some chTempNew ∧
    chTempNew ≠ chTempOld :=
  ⟨rfl, rfl, by decide⟩

/-- C2 amended: whenever the no-op guard does not fire, incremental forward
sync replaces the cache entry with the new characteristic before the remote
write settles, so the cache holds the new value whatever the write outcome
(sync.ts line 225 precedes line 226). -/
theorem forward_cache_set_before_write (env : Env) (cache : Cache)
    (device : ServiceType) (ch : CharacteristicType)
    (hg : noopGuard cache (characteristicUrl env device ch) ch.value = false) :
    (syncCharacteristicToSolid env cache device ch).1 =
      cacheSet cache (characteristicUrl env device ch) ch ∧
    cacheGet (syncCharacteristicToSolid env cache device ch).1
        (characteristicUrl env device ch) = some ch := by
  have h1 : (syncCharacteristicToSolid env cache device ch).1 =
      cacheSet cache (characteristicUrl env device ch) ch := by
    rw [syncChar_cache]; simp [hg]
  exact ⟨h1, by rw [h1]; exact cacheGet_set_self cache _ ch⟩

/-- C2 amended witness: the cache ends up holding the new value even though
the remote write rejects. -/
theorem forward_cache_set_before_write_witness :
    (syncCharacteristicToSolid sampleEnvNoWrite
        [("https://pod/Characteristics/dev1/Temp", chTempOld)]
        sampleDevice chTempNew).1 =
      cacheSet [("https://pod/Characteristics/dev1/Temp", chTempOld)]
        (characteristicUrl sampleEnvNoWrite sampleDevice chTempNew) chTempNew ∧
    cacheGet (syncCharacteristicToSolid sampleEnvNoWrite
        [("https://pod/Characteristics/dev1/Temp", chTempOld)]
        sampleDevice chTempNew).1
        (characteristicUrl sampleEnvNoWrite sampleDevice chTempNew) = some chTempNew :=
  forward_cache_set_before_write sampleEnvNoWrite
    [("https://pod/Characteristics/dev1/Temp", chTempOld)]
    sampleDevice chTempNew (by decide)

/-- C1 counterexample: syncing the sample enum-format characteristic from the
empty cache performs a remote record write, sets the cache entry for its
resource id, and resolves successfully instead of failing. -/
theorem unsupported_format_counterexample :
    remoteWriteCount ((syncCharacteristicToSolid sampleEnv [] sampleDevice chEnum).2.1) = 1 ∧
    cacheGet (syncCharacteristicToSolid sampleEnv [] sampleDevice chEnum).1
        "https://pod/Characteristics/dev1/Mode" = some chEnum ∧
    (syncCharacteristicToSolid sampleEnv [] sampleDevice chEnum).2.2 =
      .ok (.saved "https://pod/Characteristics/dev1/Mode") :=
  ⟨rfl, rfl, rfl⟩

/-- C1 amended: on an unsupported format, incremental forward sync logs an
unsupported-format error and proceeds: the record is still written remotely,
but with no value property, and the change cache entry for the resource id is
replaced with the new characteristic. -/
theorem unsupported_format_logs_and_proceeds (env : Env) (cache : Cache)
    (device : ServiceType) (ch : CharacteristicType)
    (hfmt : isSupportedFormat ch.format = false)
    (hg : noopGuard cache (characteristicUrl env device ch) ch.value = false) :
    (syncCharacteristicToSolid env cache device ch).2.1 =
      [Effect.logError "Unsupported format",
       Effect.remoteWrite (characteristicUrl env device ch)
         (buildCharacteristicThing ch)] ∧
    (syncCharacteristicToSolid env cache device ch).1 =
      cacheSet cache (characteristicUrl env device ch) ch ∧
    getProp (buildCharacteristicThing ch) (IOT "value") = none := by
  refine ⟨?_, ?_, getProp_value_unsupported ch hfmt⟩
  · cases hw : env.remoteWriteOk (characteristicUrl env device ch)
    · rw [syncChar_guard_false_err hg hw]; simp [hfmt]
    · rw [syncChar_guard_false_ok hg hw]; simp [hfmt]
  · rw [syncChar_cache]; simp [hg]

/-- C1 amended witness: the enum-format sample characteristic. -/
theorem unsupported_format_logs_and_proceeds_witness :
    (syncCharacteristicToSolid sampleEnv [] sampleDevice chEnum).2.1 =
      [Effect.logError "Unsupported format",
       Effect.remoteWrite (characteristicUrl sampleEnv sampleDevice chEnum)
         (buildCharacteristicThing chEnum)] ∧
    (syncCharacteristicToSolid sampleEnv [] sampleDevice chEnum).1 =
      cacheSet [] (characteristicUrl sampleEnv sampleDevice chEnum) chEnum ∧
    getProp (buildCharacteristicThing chEnum) (IOT "value") = none :=
  unsupported_format_logs_and_proceeds sampleEnv [] sampleDevice chEnum rfl rfl

/-- C3 counterexample: a device with two characteristics against a store that
rejects only the first characteristic's write.  The whole device sync rejects
after that single write attempt: the second characteristic is never synced
and the device's own record is never written. -/
theorem device_sync_abort_counterexample :
    syncDeviceToSolid envFailOn [] devAB =
      ([("https://pod/Characteristics/dev1/On", chOn)],
       [Effect.remoteWrite "https://pod/Characteristics/dev1/On"
          (buildCharacteristicThing chOn)],
       .error "RemoteWriteError") ∧
    devAB.serviceCharacteristics = [chOn, chBrightness] ∧
    envFailOn.remoteWriteOk "https://pod/Characteristics/dev1/Brightness" = true :=
  ⟨rfl, rfl, rfl⟩

/-- C3 amended: an unsupported format never aborts a device sync (when every
remote write resolves, the device record write always happens, whatever the
characteristics' formats), but a rejected remote write of one characteristic
propagates: the remaining characteristics are skipped and the device record
is not written. -/
theorem device_sync_propagation (env : Env) (cache : Cache) (device : ServiceType) :
    ((∀ u, env.remoteWriteOk u = true) →
      ∃ c e t, syncDeviceToSolid env cache device =
        (c, e ++ [Effect.remoteWrite (deviceUrl env device) t],
         .ok (deviceUrl env device))) ∧
    (∀ c1 rest, device.serviceCharacteristics = c1 :: rest →
      noopGuard cache (characteristicUrl env device c1) c1.value = false →
      env.remoteWriteOk (characteristicUrl env device c1) = false →
      syncDeviceToSolid env cache device =
        (cacheSet cache (characteristicUrl env device c1) c1,
         (if isSupportedFormat c1.format then []
          else [Effect.logError "Unsupported format"]) ++
           [Effect.remoteWrite (characteristicUrl env device c1)
              (buildCharacteristicThing c1)],
         .error "RemoteWriteError")) := by
  constructor
  · intro hok
    obtain ⟨c, e, t, hloop⟩ := syncCharsLoop_ok_of_writes env device hok
      device.serviceCharacteristics cache (buildDeviceThingBase device)
    exact ⟨c, e, t, syncDevice_of_loop_ok hloop (hok _)⟩
  · intro c1 rest hlist hg hw
    have hstep := syncChar_guard_false_err hg hw
    apply syncDevice_of_loop_err
    rw [hlist]
    exact syncCharsLoop_cons_err hstep

/-- C3 amended witness: with all writes resolving the enum-format device still
gets its record written; with the first characteristic's write rejecting, the
sync aborts with only that one write attempted. -/
theorem device_sync_propagation_witness :
    (∃ c e t, syncDeviceToSolid sampleEnv [] devAB =
        (c, e ++ [Effect.remoteWrite (deviceUrl sampleEnv devAB) t],
         .ok (deviceUrl sampleEnv devAB))) ∧
    syncDeviceToSolid envFailOn [] devAB =
      (cacheSet [] (characteristicUrl envFailOn devAB chOn) chOn,
       (if isSupportedFormat chOn.format then []
        else [Effect.logError "Unsupported format"]) ++
         [Effect.remoteWrite (characteristicUrl envFailOn devAB chOn)
            (buildCharacteristicThing chOn)],
       .error "RemoteWriteError") :=
  ⟨(device_sync_propagation sampleEnv [] devAB).1 (fun _ => rfl),
   (device_sync_propagation envFailOn [] devAB).2 chOn [chBrightness] rfl rfl rfl⟩

/-- C10: a characteristic suppressed by the cache equal-value no-op
contributes no hasCharacteristic link (an all-suppressed loop passes the
device thing through unchanged), the freshly built device record carries zero
characteristic links, and a repeated full device sync with all values
unchanged performs exactly one effect: it overwrites the device record with
the link-free base record. -/
theorem device_resync_zero_links (env : Env) (device : ServiceType)
    (hok : ∀ u, env.remoteWriteOk u = true)
    (hself : ∀ ch ∈ device.serviceCharacteristics, looseEq ch.value ch.value = true)
    (hdist : device.serviceCharacteristics.Pairwise (fun a b => a.type ≠ b.type)) :
    getUrlsOf (buildDeviceThingBase device) (IOT "hasCharacteristic") = [] ∧
    (∀ (cache : Cache) (thing : Thing),
      (∀ ch ∈ device.serviceCharacteristics,
        noopGuard cache (characteristicUrl env device ch) ch.value = true) →
      syncCharsLoop env device cache device.serviceCharacteristics thing =
        (cache, [], .ok thing)) ∧
    syncDeviceToSolid env (syncDeviceToSolid env [] device).1 device =
      ((syncDeviceToSolid env [] device).1,
       [Effect.remoteWrite (deviceUrl env device) (buildDeviceThingBase device)],
       .ok (deviceUrl env device)) := by
  obtain ⟨cc, e, t, hloop⟩ := syncCharsLoop_ok_of_writes env device hok
    device.serviceCharacteristics [] (buildDeviceThingBase device)
  have hdev1 := syncDevice_of_loop_ok hloop (hok _)
  have hc1 : (syncDeviceToSolid env [] device).1 = cc := by rw [hdev1]
  have hcached : ∀ ch ∈ device.serviceCharacteristics,
      cacheGet cc (characteristicUrl env device ch) = some ch := by
    intro ch hch
    have h := syncCharsLoop_caches env device hok device.serviceCharacteristics []
      (buildDeviceThingBase device) (fun _ _ => rfl) hdist ch hch
    rw [hloop] at h
    exact h
  have hguards : ∀ ch ∈ device.serviceCharacteristics,
      noopGuard cc (characteristicUrl env device ch) ch.value = true := by
    intro ch hch
    unfold noopGuard
    rw [hcached ch hch]
    exact hself ch hch
  refine ⟨?_, ?_, ?_⟩
  · unfold buildDeviceThingBase
    simp [getUrlsOf, addStringNoLocale, addInteger, addUrl, addProp, createThing,
      IOT, rdfType]
  · intro cache thing h
    exact syncCharsLoop_all_noop env device device.serviceCharacteristics cache thing h
  · have hloop2 : syncCharsLoop env device cc device.serviceCharacteristics
        (buildDeviceThingBase device) = (cc, [], .ok (buildDeviceThingBase device)) :=
      syncCharsLoop_all_noop env device device.serviceCharacteristics cc
        (buildDeviceThingBase device) hguards
    rw [hc1, syncDevice_of_loop_ok hloop2 (hok _)]
    simp

/-- C10 witness: resyncing the two-characteristic sample device immediately
after a full sync overwrites its record with zero characteristic links. -/
theorem device_resync_zero_links_witness :
    getUrlsOf (buildDeviceThingBase devAB) (IOT "hasCharacteristic") = [] ∧
    syncDeviceToSolid sampleEnv (syncDeviceToSolid sampleEnv [] devAB).1 devAB =
      ((syncDeviceToSolid sampleEnv [] devAB).1,
       [Effect.remoteWrite (deviceUrl sampleEnv devAB) (buildDeviceThingBase devAB)],
       .ok (deviceUrl sampleEnv devAB)) :=
  ⟨(device_resync_zero_links sampleEnv devAB (fun _ => rfl) (by decide) (by decide)).1,
   (device_resync_zero_links sampleEnv devAB (fun _ => rfl) (by decide) (by decide)).2.2⟩

/-- Appending a property under a fresh key makes it the retrievable value. -/
theorem getProp_addProp_self (t : Thing) (k : String) (v : ThingVal)
    (h : getProp t k = none) : getProp (addProp t k v) k = some v := by
  unfold getProp at h ⊢
  unfold addProp
  rw [List.find?_append]
  rw [Option.map_eq_none'] at h
  simp [h, List.find?]

/-- Extending a thing's property list does not change an already-found
property. -/
theorem getProp_extend {t : Thing} {k : String} {v : ThingVal}
    (l : List (String × ThingVal)) (h : getProp t k = some v) :
    getProp ⟨t.name, t.props ++ l⟩ k = some v := by
  unfold getProp at h ⊢
  rw [List.find?_append]
  cases hf : t.props.find? (fun p => p.1 == k) with
  | none => rw [hf] at h; simp at h
  | some pr => rw [hf] at h; simp_all

/-- The value switch only ever appends properties. -/
theorem addValueForFormat_props (t : Thing) (f : String) (v : Value) :
    ∃ l, addValueForFormat t f v = ⟨t.name, t.props ++ l⟩ := by
  unfold addValueForFormat
  split
  · exact ⟨[(IOT "value", .tvInt (coerceIntJS v))], rfl⟩
  · exact ⟨[(IOT "value", .tvStr (jsDisplay v))], rfl⟩
  · exact ⟨[(IOT "value", .tvDec (coerceFloatJS v))], rfl⟩
  · exact ⟨[(IOT "value", .tvInt (coerceIntJS v))], rfl⟩
  · exact ⟨[(IOT "value", .tvInt (coerceIntJS v))], rfl⟩
  · exact ⟨[(IOT "value", .tvInt (coerceIntJS v))], rfl⟩
  · exact ⟨[(IOT "value", .tvInt (coerceIntJS v))], rfl⟩
  · exact ⟨[(IOT "value", .tvInt (coerceIntJS v))], rfl⟩
  · exact ⟨[], by cases t; simp⟩

/-- The stored format property of a built characteristic record is the
characteristic's format string. -/
theorem characteristicThing_format (ch : CharacteristicType) :
    getStringNoLocale (buildCharacteristicThing ch) (IOT "format") = some ch.format := by
  have hbase : getProp (buildCharacteristicThingBase ch) (IOT "format") =
      some (.tvStr ch.format) := by
    unfold buildCharacteristicThingBase
    cases hu : ch.unit with
    | none =>
      simp [getProp, addStringNoLocale, addInteger, addUrl, addProp, createThing,
        IOT, rdfType, List.find?]
    | some u =>
      cases hue : (u == "") <;>
        simp [hue, getProp, addStringNoLocale, addInteger, addUrl, addProp, createThing,
          IOT, rdfType, List.find?]
  obtain ⟨l, hl⟩ := addValueForFormat_props (buildCharacteristicThingBase ch)
    ch.format ch.value
  unfold buildCharacteristicThing
  rw [hl]
  unfold getStringNoLocale
  rw [getProp_extend l hbase]

/-- C7: decoding a written characteristic record through its stored format
returns the stored value: strings round-trip as text, floats as decimals, the
integer family as integers, and a boolean round-trips as the integer 0/1 it
was stored as. -/
theorem codec_roundtrip :
    (∀ (ch : CharacteristicType) (s : String), ch.format = "string" → ch.value = .vStr s →
      (decodeValueForFormat (getStringNoLocale (buildCharacteristicThing ch) (IOT "format"))
        (buildCharacteristicThing ch)).1 = some (.vStr s)) ∧
    (∀ (ch : CharacteristicType) (q : Rat), ch.format = "float" → ch.value = .vNum (some q) →
      (decodeValueForFormat (getStringNoLocale (buildCharacteristicThing ch) (IOT "format"))
        (buildCharacteristicThing ch)).1 = some (.vNum (some q))) ∧
    (∀ (ch : CharacteristicType) (q : Rat),
      (ch.format = "int" ∨ ch.format = "uint8" ∨ ch.format = "uint16" ∨
        ch.format = "uint32" ∨ ch.format = "uint64") → ch.value = .vNum (some q) →
      (decodeValueForFormat (getStringNoLocale (buildCharacteristicThing ch) (IOT "format"))
        (buildCharacteristicThing ch)).1 = some (.vNum (some q))) ∧
    (∀ (ch : CharacteristicType) (b : Bool), ch.format = "bool" → ch.value = .vBool b →
      (decodeValueForFormat (getStringNoLocale (buildCharacteristicThing ch) (IOT "format"))
        (buildCharacteristicThing ch)).1 = some (.vNum (some (if b then 1 else 0)))) := by
  have hval : ∀ (ch : CharacteristicType) (tv : ThingVal),
      addValueForFormat (buildCharacteristicThingBase ch) ch.format ch.value =
        addProp (buildCharacteristicThingBase ch) (IOT "value") tv →
      getProp (buildCharacteristicThing ch) (IOT "value") = some tv := by
    intro ch tv h
    unfold buildCharacteristicThing
    rw [h]
    exact getProp_addProp_self _ _ _ (characteristicThingBase_value_none ch)
  refine ⟨?_, ?_, ?_, ?_⟩
  · intro ch s hfmt hv
    rw [characteristicThing_format ch, hfmt]
    have h := hval ch (.tvStr s) (by rw [hfmt, hv]; rfl)
    simp [decodeValueForFormat, getStringNoLocale, h]
  · intro ch q hfmt hv
    rw [characteristicThing_format ch, hfmt]
    have h := hval ch (.tvDec (some q)) (by rw [hfmt, hv]; rfl)
    simp [decodeValueForFormat, getDecimal, h]
  · intro ch q hfmt hv
    have h := hval ch (.tvInt (some q)) (by
      rcases hfmt with h5 | h5 | h5 | h5 | h5 <;> rw [h5, hv] <;> rfl)
    rw [characteristicThing_format ch]
    rcases hfmt with h5 | h5 | h5 | h5 | h5 <;> rw [h5] <;>
      simp [decodeValueForFormat, getInteger, h]
  · intro ch b hfmt hv
    rw [characteristicThing_format ch, hfmt]
    have h := hval ch (.tvInt (some (if b then 1 else 0))) (by
      rw [hfmt, hv]; cases b <;> rfl)
    simp [decodeValueForFormat, getInteger, h]

/-- C7 witness: the boolean sample characteristic (value true) stores integer
1 and decodes back to 1. -/
theorem codec_roundtrip_witness :
    (decodeValueForFormat (getStringNoLocale (buildCharacteristicThing chOn) (IOT "format"))
      (buildCharacteristicThing chOn)).1 = some (.vNum (some 1)) :=
  codec_roundtrip.2.2.2 chOn true rfl rfl

/-- Full run of the reverse-sync handler on a recognized resource whose fetch,
thing lookup and decode all succeed: the comparison against the cached value
decides between a no-op and a local write, and only a successful local write
updates the cache. -/
theorem handleSolidMessage_run (renv : ReverseEnv) (cache : Cache) (msgData : String)
    (curr : CharacteristicType) (data : Dataset) (thing : Thing) (v : Value)
    (hpub : (msgData != "" && msgData.take 3 == "pub") = true)
    (hcurr : cacheGet cache (msgData.drop 4) = some curr)
    (hfetch : renv.fetched (msgData.drop 4) = some data)
    (hthing : getThing data (msgData.drop 4 ++ "#" ++ characteristicThingName curr) =
      some thing)
    (hdec : (decodeValueForFormat (getStringNoLocale thing (IOT "format")) thing).1 =
      some v) :
    handleSolidMessage renv cache msgData =
      if looseEq v curr.value then (cache, [Effect.remoteFetch (msgData.drop 4)])
      else
        match renv.setValueResult v with
        | some updated =>
            (cacheSet cache (msgData.drop 4) updated,
             [Effect.remoteFetch (msgData.drop 4), Effect.localWrite v])
        | none => (cache, [Effect.remoteFetch (msgData.drop 4), Effect.localWrite v]) := by
  have hlogs := decode_some_logs hdec
  rcases hd : decodeValueForFormat (getStringNoLocale thing (IOT "format")) thing
    with ⟨w, logs⟩
  rw [hd] at hdec hlogs
  simp only at hdec hlogs
  subst hdec
  subst hlogs
  unfold handleSolidMessage
  rw [hpub]
  simp only [if_true, hcurr, hfetch, hthing, hd]
  cases hcmp : looseEq v curr.value
  · simp only [hcmp, Bool.false_eq_true, if_false]
    cases hset : renv.setValueResult v <;> simp [hset]
  · simp [hcmp]

/-- C5: after reverse sync applies a remote value through a successful local
write and stores the confirmed characteristic in the cache, a subsequent
local change notification carrying that same value is suppressed by forward
sync's no-op guard: no effects at all, in particular no remote write. -/
theorem reverse_apply_no_echo (renv : ReverseEnv) (env : Env) (cache : Cache)
    (msgData : String) (curr updated : CharacteristicType) (data : Dataset)
    (thing : Thing) (v : Value) (dv : ServiceType) (chLocal : CharacteristicType)
    (hpub : (msgData != "" && msgData.take 3 == "pub") = true)
    (hcurr : cacheGet cache (msgData.drop 4) = some curr)
    (hfetch : renv.fetched (msgData.drop 4) = some data)
    (hthing : getThing data (msgData.drop 4 ++ "#" ++ characteristicThingName curr) =
      some thing)
    (hdec : (decodeValueForFormat (getStringNoLocale thing (IOT "format")) thing).1 =
      some v)
    (hdiff : looseEq v curr.value = false)
    (hset : renv.setValueResult v = some updated)
    (hurl : characteristicUrl env dv chLocal = msgData.drop 4)
    (hlocal : chLocal.value = v)
    (happlied : looseEq v updated.value = true) :
    (handleSolidMessage renv cache msgData).1 =
      cacheSet cache (msgData.drop 4) updated ∧
    syncCharacteristicToSolid env (handleSolidMessage renv cache msgData).1 dv chLocal =
      ((handleSolidMessage renv cache msgData).1, [], .ok .noop) := by
  have hrun := handleSolidMessage_run renv cache msgData curr data thing v
    hpub hcurr hfetch hthing hdec
  rw [hdiff] at hrun
  simp only [Bool.false_eq_true, if_false, hset] at hrun
  have h1 : (handleSolidMessage renv cache msgData).1 =
      cacheSet cache (msgData.drop 4) updated := by rw [hrun]
  refine ⟨h1, ?_⟩
  rw [h1]
  apply syncChar_guard_true
  unfold noopGuard
  rw [hurl, cacheGet_set_self, hlocal]
  exact happlied

/-- Cached characteristic for the no-echo witness, before the remote change. -/
def currOn : CharacteristicType :=
  ⟨"On", "On", "bool", 2, "uuid-on", .vBool false, none, true, true⟩

/-- Characteristic returned by the successful local write in the no-echo
witness: the applied value 1. -/
def updatedOn : CharacteristicType :=
  ⟨"On", "On", "bool", 2, "uuid-on", .vNum (some 1), none, true, true⟩

/-- Remote record fetched in the no-echo witness: format bool, value 1. -/
def thingOn : Thing :=
  ⟨"https://pod/Characteristics/dev1/On#On2",
   [(IOT "format", .tvStr "bool"), (IOT "value", .tvInt (some 1))]⟩

/-- Reverse-sync environment of the no-echo witness. -/
def renvOn : ReverseEnv :=
  ⟨fun u => if u == "https://pod/Characteristics/dev1/On" then some [thingOn] else none,
   fun _ => some updatedOn⟩

/-- Local change notification characteristic of the no-echo witness, carrying
the value 1 that reverse sync just applied. -/
def chLocalOn : CharacteristicType :=
  ⟨"On", "On", "bool", 2, "uuid-on", .vNum (some 1), none, true, true⟩

/-- C5 witness: a concrete reverse-sync application followed by the matching
local change notification, which forward sync suppresses. -/
theorem reverse_apply_no_echo_witness :
    (handleSolidMessage renvOn [("https://pod/Characteristics/dev1/On", currOn)]
        "pub https://pod/Characteristics/dev1/On").1 =
      cacheSet [("https://pod/Characteristics/dev1/On", currOn)]
        ("pub https://pod/Characteristics/dev1/On".drop 4) updatedOn ∧
    syncCharacteristicToSolid sampleEnv
        (handleSolidMessage renvOn [("https://pod/Characteristics/dev1/On", currOn)]
          "pub https://pod/Characteristics/dev1/On").1 sampleDevice chLocalOn =
      ((handleSolidMessage renvOn [("https://pod/Characteristics/dev1/On", currOn)]
          "pub https://pod/Characteristics/dev1/On").1, [], .ok .noop) :=
  reverse_apply_no_echo renvOn sampleEnv
    [("https://pod/Characteristics/dev1/On", currOn)]
    "pub https://pod/Characteristics/dev1/On" currOn updatedOn [thingOn] thingOn
    (.vNum (some 1)) sampleDevice chLocalOn rfl rfl rfl rfl rfl (by decide) rfl rfl rfl
    (by decide)

/-- C9: the comparison gating both sync directions is JavaScript loose
equality: a numeric value and a string rendering of the same number compare
equal, as do the integer 1 and the boolean true; consequently forward sync
suppresses a candidate that is loosely equal to the cached value, and the
reverse-sync handler ends in a no-op (no local write, cache untouched) when
the decoded remote value is loosely equal to the cached one. -/
theorem loose_equality_gates_both_directions :
    (∀ (s : String) (q : Rat), strToNum s = some q →
      looseEq (.vNum (some q)) (.vStr s) = true ∧
      looseEq (.vStr s) (.vNum (some q)) = true) ∧
    looseEq (.vNum (some 1)) (.vBool true) = true ∧
    (∀ (env : Env) (cache : Cache) (device : ServiceType)
        (ch curr : CharacteristicType),
      cacheGet cache (characteristicUrl env device ch) = some curr →
      looseEq ch.value curr.value = true →
      syncCharacteristicToSolid env cache device ch = (cache, [], .ok .noop)) ∧
    (∀ (renv : ReverseEnv) (cache : Cache) (msgData : String)
        (curr : CharacteristicType) (data : Dataset) (thing : Thing) (v : Value),
      (msgData != "" && msgData.take 3 == "pub") = true →
      cacheGet cache (msgData.drop 4) = some curr →
      renv.fetched (msgData.drop 4) = some data →
      getThing data (msgData.drop 4 ++ "#" ++ characteristicThingName curr) =
        some thing →
      (decodeValueForFormat (getStringNoLocale thing (IOT "format")) thing).1 =
        some v →
      looseEq v curr.value = true →
      handleSolidMessage renv cache msgData =
        (cache, [Effect.remoteFetch (msgData.drop 4)])) := by
  refine ⟨?_, by decide, ?_, ?_⟩
  · intro s q h
    constructor
    · show jsNumEq (Value.toNumber (.vNum (some q))) (Value.toNumber (.vStr s)) = true
      simp [Value.toNumber, jsNumEq, h]
    · show jsNumEq (Value.toNumber (.vStr s)) (Value.toNumber (.vNum (some q))) = true
      simp [Value.toNumber, jsNumEq, h]
  · intro env cache device ch curr hc hl
    apply syncChar_guard_true
    unfold noopGuard
    rw [hc]
    exact hl
  · intro renv cache msgData curr data thing v hpub hcurr hfetch hthing hdec heq
    have hrun := handleSolidMessage_run renv cache msgData curr data thing v
      hpub hcurr hfetch hthing hdec
    rw [heq] at hrun
    simpa using hrun

/-- C9 witness: the cached number 1 suppresses an incoming string value of the
string one, and the reverse handler no-ops when the decoded 1 meets a cached
boolean true. -/
theorem loose_equality_gates_both_directions_witness :
    looseEq (.vNum (some 1)) (.vStr "1") = true ∧
    syncCharacteristicToSolid sampleEnv
        [("https://pod/Characteristics/dev1/On",
          (⟨"On", "On", "string", 2, "uuid-on", .vNum (some 1), none, true, true⟩ :
            CharacteristicType))]
        sampleDevice
        ⟨"On", "On", "string", 2, "uuid-on", .vStr "1", none, true, true⟩ =
      ([("https://pod/Characteristics/dev1/On",
          (⟨"On", "On", "string", 2, "uuid-on", .vNum (some 1), none, true, true⟩ :
            CharacteristicType))], [], .ok .noop) ∧
    handleSolidMessage renvOn [("https://pod/Characteristics/dev1/On", chLocalOn)]
        "pub https://pod/Characteristics/dev1/On" =
      ([("https://pod/Characteristics/dev1/On", chLocalOn)],
       [Effect.remoteFetch ("pub https://pod/Characteristics/dev1/On".drop 4)]) :=
  ⟨(loose_equality_gates_both_directions.1 "1" 1 (by decide)).1,
   loose_equality_gates_both_directions.2.2.1 sampleEnv _ sampleDevice
     ⟨"On", "On", "string", 2, "uuid-on", .vStr "1", none, true, true⟩
     ⟨"On", "On", "string", 2, "uuid-on", .vNum (some 1), none, true, true⟩
     rfl (by decide),
   loose_equality_gates_both_directions.2.2.2 renvOn _
     "pub https://pod/Characteristics/dev1/On" chLocalOn [thingOn] thingOn
     (.vNum (some 1)) rfl rfl rfl rfl rfl (by decide)⟩

end SolidIot
